import Mathlib

/-!
Shallow embedding of the `fastmcp-hackathon` server (`src/server.py`) and of
the content-registration contract it participates in.

The repository registers one static resource (`resource://hackathon-overview`)
and one prompt (`fastmcp-python-starter`) on a FastMCP application; all served
text comes from inline string constants.  The handler functions and the
registration metadata below are translated directly from `src/server.py`.
The registry operations (`register`, `resolve`, `list`), the content store
(`load`) and the application builder (`build`) live in the external FastMCP
framework, which is not part of the repository's sources; those are modelled
from the specification's content-registration contract and are marked as such.
-/

/-- A role-tagged prompt message, mirroring `mcp.types.PromptMessage` as the
server constructs it: a role string and the message text. -/
structure PromptMessage where
  role : String
  text : String
deriving DecidableEq, Repr

/-- An immutable UTF-8 text plus its declared content type. -/
structure ContentBlob where
  text : String
  mimeType : String
deriving DecidableEq, Repr

/-- The three endpoint kinds of the registry: static resources, prompt
templates, and callable tools. -/
inductive EndpointDescriptor where
  | resource (identifier name description mimeType text : String)
  | prompt (identifier description : String) (messages : List PromptMessage)
  | tool (identifier description : String) (params : List String) (text : String)
deriving DecidableEq, Repr

def EndpointDescriptor.identifier : EndpointDescriptor → String
  | .resource i _ _ _ _ => i
  | .prompt i _ _ => i
  | .tool i _ _ _ => i

def EndpointDescriptor.isTool : EndpointDescriptor → Bool
  | .tool _ _ _ _ => true
  | _ => false

/-- Resource read operation: a resource returns its referenced blob's text and
content type; the operation takes no parameters. -/
def EndpointDescriptor.read : EndpointDescriptor → Option ContentBlob
  | .resource _ _ _ mt t => some ⟨t, mt⟩
  | _ => none

/-- Prompt render operation: a prompt returns its registered message sequence
verbatim. -/
def EndpointDescriptor.render : EndpointDescriptor → Option (List PromptMessage)
  | .prompt _ _ ms => some ms
  | _ => none

/-- Modelled from the spec: `Tool.invoke(args)` accepts and discards any
declared parameters and returns the referenced blob's text unconditionally.
(The repository registers no tool, so no tool handler exists in `src/`.) -/
def EndpointDescriptor.invoke : EndpointDescriptor → List (String × String) → Option String
  | .tool _ _ _ t, _ => some t
  | _, _ => none

abbrev Registry := List EndpointDescriptor

inductive RegisterError where
  | duplicateIdentifierError
deriving DecidableEq, Repr

/-- Modelled from the spec: `register` appends the descriptor in insertion
order, failing with `DuplicateIdentifierError` when the identifier already
exists (never a silent overwrite). -/
def register (r : Registry) (d : EndpointDescriptor) : Except RegisterError Registry :=
  if r.any (fun e => e.identifier == d.identifier) then
    .error .duplicateIdentifierError
  else
    .ok (r ++ [d])

/-- State-transition form of `register`: on failure the registry state is the
state from before the call, paired with the error. -/
def tryRegister (r : Registry) (d : EndpointDescriptor) : Registry × Option RegisterError :=
  match register r d with
  | .ok r2 => (r2, none)
  | .error e => (r, some e)

/-- Modelled from the spec: `resolve` returns the matching descriptor, or the
`NotFound` value (`none`) on a miss — never an exception. -/
def resolve (r : Registry) (ident : String) : Option EndpointDescriptor :=
  match r with
  | [] => none
  | d :: rest => if d.identifier == ident then some d else resolve rest ident

/-- Modelled from the spec: `list` returns the registered descriptors in
insertion order. -/
def listEndpoints (r : Registry) : Registry := r

def registerAll (r : Registry) : List EndpointDescriptor → Except RegisterError Registry
  | [] => .ok r
  | d :: ds =>
    match register r d with
    | .error e => .error e
    | .ok r2 => registerAll r2 ds

/-- A content source: an embedded literal, or a file path. -/
inductive ContentSource where
  | literal (text : String)
  | filePath (path : String)
deriving DecidableEq, Repr

/-- The file system as seen by the content store: `some s` means the path holds
readable, valid-UTF-8 text `s`; `none` means missing, unreadable, or not valid
UTF-8. -/
abbrev FileStore := String → Option String

inductive ContentLoadError where
  | contentLoadError (path : String)
deriving DecidableEq, Repr

/-- Modelled from the spec: the content store's `load` returns the decoded
text for a literal or a readable file, and fails with `ContentLoadError` when
the file is missing, unreadable, or not valid UTF-8. -/
def load (fs : FileStore) : ContentSource → Except ContentLoadError String
  | .literal s => .ok s
  | .filePath p =>
    match fs p with
    | some s => .ok s
    | none => .error (.contentLoadError p)

/-- Modelled from the spec: eager, startup-time loading of all declared
sources; the first failure aborts. -/
def loadAll (fs : FileStore) :
    List (String × ContentSource) → Except ContentLoadError (List (String × String))
  | [] => .ok []
  | (n, s) :: rest =>
    match load fs s with
    | .error e => .error e
    | .ok t =>
      match loadAll fs rest with
      | .error e => .error e
      | .ok ts => .ok ((n, t) :: ts)

/-- The application handle: immutable name/description metadata plus the
populated endpoint registry. -/
structure Application where
  name : String
  instructions : String
  registry : Registry
deriving DecidableEq, Repr

inductive BuildError where
  | loadErr (e : ContentLoadError)
  | regErr (e : RegisterError)
deriving DecidableEq, Repr

/-- Modelled from the spec: `build` constructs one content store, loads all
declared sources, populates one registry, and returns the Application; any
load or registration failure aborts construction, so no Application value is
produced. -/
def build (fs : FileStore) (name description : String)
    (sources : List (String × ContentSource))
    (mk : List (String × String) → List EndpointDescriptor) :
    Except BuildError Application :=
  match loadAll fs sources with
  | .error e => .error (BuildError.loadErr e)
  | .ok blobs =>
    match registerAll [] (mk blobs) with
    | .error e => .error (BuildError.regErr e)
    | .ok reg => .ok ⟨name, description, reg⟩

/-! ## Constants of `src/server.py` -/

def APP_NAME : String := "fastmcp-hackathon"

def APP_DESCRIPTION : String :=
  "Provides the hackathon overview markdown and a starter prompt for building FastMCP servers with Python."

def HACKATHON_MARKDOWN : String := "## Overview\n\nThis hackathon is about building **MCP (Model Context Protocol) servers** that work inside **Cursor**. You can build in **any language or framework**. Python with **FastMCP** is a recommended setup because it is quick to prototype and easy to demo inside Cursor.\n\n---\n\n## Goals\n\n- Learn how MCP plugs into Cursor\n- Build and demo your own MCP server\n- Explore unique ideas that go beyond existing connectors\n\n---\n\n## Architecture at a Glance\n\n```mermaid\nflowchart TD\n  A[Cursor] --> B[LLM in Cursor]\n  B --> C\x7bMCP Client Layer\x7d\n  C -->|List tools| D[MCP Server]\n  C -->|Call tool with args| D\n  D --> E\x7bTool Handler\x7d\n  E -->|Local action| F[Filesystem or Local DB]\n  E -->|External call| G[Third Party API]\n  F --> H[Structured Result]\n  G --> H[Structured Result]\n  H --> I\x7bMCP Response\x7d\n  I --> J[Cursor Renders Output]\n  J --> K[User Iterates in Editor]\n\n```\n\n---\n\n## Getting Started\n\n### Fast path in Python with FastMCP\n\n```bash\ngit clone <https://github.com/modelcontextprotocol/fastmcp-starter>\ncd fastmcp-starter\npip install -r requirements.txt\npython server.py\n\n```\n\nAdd to `.cursor/config.json`:\n\n```json\n\x7b\n  \"mcpServers\": \x7b\n    \"fastmcp-demo\": \x7b\n      \"command\": \"python\",\n      \"args\": [\"server.py\"]\n    \x7d\n  \x7d\n\x7d\n\n```\n\nRestart Cursor to load the server.\n\n### Use any language\n\n- Implement MCP request and response contracts\n- Expose tools that accept JSON args\n- Print stdout and read stdin as required by MCP\n\n---\n\n## Unique Project Ideas\n\nSkip the obvious GitHub, Slack, Notion, and Gmail clones.\n\n- **Mood Board MCP**\nInput a vibe such as “cozy autumn coding”. Return a small set of curated Unsplash or Pexels links.\n- **Weather plus Vibes MCP**\nGet local forecast and pair it with a matching focus playlist link.\n- **Regex Builder MCP**\nConvert plain English rules into a working regex with sample test cases.\n- **Snippet Swap MCP**\nQuery a local JSON or SQLite store to fetch code snippets by topic. No API keys needed.\n- **Persona Generator MCP**\nProduce quick UX persona objects from a one line description.\n- **Commit Poem MCP**\nTurn a git commit message into a short haiku or limerick.\n- **Emoji Mapper MCP**\nAnnotate any paragraph with contextually fitting emojis.\n- **Denver Coffee Crawl MCP**\nReturn top five indie coffee shops for a given neighborhood.\n\n---\n\n## Rules and Format\n\n- Use any language or framework\n- Python with FastMCP is recommended for speed\n- Solo or teams of up to three\n- Judging criteria\n    - **Utility**\n    - **Creativity**\n    - **Execution inside Cursor**\n\n---\n\n## Resources\n\n- Cursor Docs: https://cursor.sh/docs\n- MCP Example Servers: https://github.com/modelcontextprotocol\n- Python FastMCP Repo: https://github.com/modelcontextprotocol/python-sdk\n\n---\n\n## Let’s Build\n\nKeep the scope tight. Make it work in Cursor. Demo proudly.\n"

def PROMPT_TEMPLATE : String := "You are developing a new FastMCP server in Python. Use the fastmcp package to:\n\n1. Register any MCP tools your workflow needs.\n2. Expose relevant resources using `@app.resource` with helpful markdown.\n3. Provide prompts that give Cursor users clear next steps for interacting with your server.\n\nExpectations:\n- Validate and parse JSON arguments with Pydantic models or dataclasses.\n- Return structured results that Cursor can render cleanly.\n- Keep the server stateless when possible so it restarts reliably.\n- Add inline comments where the implementation could benefit from quick context.\n\nStart by outlining the server’s responsibilities, then implement each tool and resource. Include lightweight tests or manual verification steps where practical so the server is demo-ready.\n"

/-- Handler of the resource `resource://hackathon-overview`: returns the
hackathon overview constant on every call. -/
def hackathon_overview : Unit → String := fun _ => HACKATHON_MARKDOWN

/-- Handler of the prompt `fastmcp-python-starter`: an assistant message with
an inline constant, then a user message carrying `PROMPT_TEMPLATE`. -/
def fastmcp_python_prompt : Unit → List PromptMessage := fun _ =>
  [ ⟨"assistant",
     "You are an expert FastMCP engineer helping a developer build a Python MCP server that integrates cleanly with Cursor."⟩,
    ⟨"user", PROMPT_TEMPLATE⟩ ]

/-- The descriptor registered by the `@app.resource` decorator call. -/
def hackathonOverviewDescriptor : EndpointDescriptor :=
  .resource "resource://hackathon-overview" "Hackathon Overview"
    "Markdown overview for the MCP hackathon" "text/markdown" (hackathon_overview ())

/-- The descriptor registered by the `@app.prompt` decorator call. -/
def fastmcpPythonStarterDescriptor : EndpointDescriptor :=
  .prompt "fastmcp-python-starter"
    "Prompt template for building FastMCP servers with Python" (fastmcp_python_prompt ())

/-- The module-level registration sequence of `server.py`: the resource, then
the prompt, registered on an initially empty registry. -/
def appRegistry : Except RegisterError Registry :=
  registerAll [] [hackathonOverviewDescriptor, fastmcpPythonStarterDescriptor]

/-- The application value after startup: name, instructions, and the two
registered endpoints. -/
def serverApp : Application :=
  ⟨APP_NAME, APP_DESCRIPTION, [hackathonOverviewDescriptor, fastmcpPythonStarterDescriptor]⟩

/-! ## Request handling as a state transition -/

inductive Request where
  | readReq (ident : String)
  | renderReq (ident : String)
  | invokeReq (ident : String) (args : List (String × String))
  | resolveReq (ident : String)
  | listReq
deriving DecidableEq, Repr

inductive Response where
  | blob (b : Option ContentBlob)
  | messages (ms : Option (List PromptMessage))
  | text (t : Option String)
  | descriptor (d : Option EndpointDescriptor)
  | listing (l : Registry)
deriving DecidableEq, Repr

/-- One request-handling step: the handlers of `server.py` only return
already-constructed values, so the step is written in state-passing style,
returning the (unchanged) application together with the response. -/
def handle (a : Application) : Request → Application × Response
  | .readReq i => (a, .blob ((resolve a.registry i).bind EndpointDescriptor.read))
  | .renderReq i => (a, .messages ((resolve a.registry i).bind EndpointDescriptor.render))
  | .invokeReq i args => (a, .text ((resolve a.registry i).bind (fun d => d.invoke args)))
  | .resolveReq i => (a, .descriptor (resolve a.registry i))
  | .listReq => (a, .listing (listEndpoints a.registry))

/-- The server's declared content sources: both are embedded literals, no file
path appears among them. -/
def serverSources : List (String × ContentSource) :=
  [("hackathon_overview", ContentSource.literal HACKATHON_MARKDOWN),
   ("prompt_template", ContentSource.literal PROMPT_TEMPLATE)]

def lookupBlob (blobs : List (String × String)) (n : String) : String :=
  match blobs.find? (fun b => b.1 == n) with
  | some b => b.2
  | none => ""

/-- Descriptor construction from the loaded blobs, as the decorators of
`server.py` bind them. -/
def mkServerDescriptors (blobs : List (String × String)) : List EndpointDescriptor :=
  [ .resource "resource://hackathon-overview" "Hackathon Overview"
      "Markdown overview for the MCP hackathon" "text/markdown"
      (lookupBlob blobs "hackathon_overview"),
    .prompt "fastmcp-python-starter"
      "Prompt template for building FastMCP servers with Python"
      [ ⟨"assistant",
         "You are an expert FastMCP engineer helping a developer build a Python MCP server that integrates cleanly with Cursor."⟩,
        ⟨"user", lookupBlob blobs "prompt_template"⟩ ] ]

/-! ## Theorems -/

/-- Claim C1: every call to the `hackathon_overview` resource's read operation
returns the `HACKATHON_MARKDOWN` constant beginning "## Overview", byte for
byte, with declared content type "text/markdown" and display name
"Hackathon Overview" in the registry listing; repeated calls return the
identical string. -/
theorem c1_hackathon_overview_read :
    (∀ u v : Unit, hackathon_overview u = hackathon_overview v) ∧
    hackathon_overview () = HACKATHON_MARKDOWN ∧
    EndpointDescriptor.read hackathonOverviewDescriptor =
      some ⟨HACKATHON_MARKDOWN, "text/markdown"⟩ ∧
    hackathonOverviewDescriptor =
      EndpointDescriptor.resource "resource://hackathon-overview" "Hackathon Overview"
        "Markdown overview for the MCP hackathon" "text/markdown" HACKATHON_MARKDOWN ∧
    hackathonOverviewDescriptor ∈ listEndpoints serverApp.registry ∧
    HACKATHON_MARKDOWN.data.take 11 = "## Overview".data :=
  ⟨fun _ _ => rfl, rfl, rfl, rfl, List.Mem.head _, by decide⟩

/-- Claim C2: the `fastmcp-python-starter` prompt's render operation returns,
on every call, exactly two messages: an assistant message first, then a user
message whose text is `PROMPT_TEMPLATE` unchanged. -/
theorem c2_prompt_two_messages (u : Unit) :
    (fastmcp_python_prompt u).length = 2 ∧
    (fastmcp_python_prompt u).map PromptMessage.role = ["assistant", "user"] ∧
    (fastmcp_python_prompt u).map PromptMessage.text =
      ["You are an expert FastMCP engineer helping a developer build a Python MCP server that integrates cleanly with Cursor.",
       PROMPT_TEMPLATE] ∧
    EndpointDescriptor.render fastmcpPythonStarterDescriptor = some (fastmcp_python_prompt u) :=
  ⟨rfl, rfl, rfl, rfl⟩

/-- Claim C8: the first message of the `fastmcp-python-starter` prompt always
has role "assistant" and the exact inline text about the expert FastMCP
engineer, and that text is drawn from neither served blob. -/
theorem c8_first_message_assistant (u : Unit) :
    (fastmcp_python_prompt u).head? =
      some ⟨"assistant",
        "You are an expert FastMCP engineer helping a developer build a Python MCP server that integrates cleanly with Cursor."⟩ ∧
    "You are an expert FastMCP engineer helping a developer build a Python MCP server that integrates cleanly with Cursor."
      ≠ HACKATHON_MARKDOWN ∧
    "You are an expert FastMCP engineer helping a developer build a Python MCP server that integrates cleanly with Cursor."
      ≠ PROMPT_TEMPLATE :=
  ⟨rfl, by decide, by decide⟩

/-- Claim C9: after startup the registry holds exactly two endpoints — the
resource `resource://hackathon-overview` and the prompt
`fastmcp-python-starter` — and no tool is registered at all. -/
theorem c9_registry_two_endpoints_no_tools :
    appRegistry = Except.ok serverApp.registry ∧
    serverApp.registry.map EndpointDescriptor.identifier =
      ["resource://hackathon-overview", "fastmcp-python-starter"] ∧
    serverApp.registry.length = 2 ∧
    serverApp.registry.filter EndpointDescriptor.isTool = [] :=
  ⟨rfl, rfl, rfl, rfl⟩

/-- Claim C3: for every registered tool descriptor, invocation with any two
argument lists (including the empty one) yields the same result — vacuously
over this registry, which contains no tool; the argument-inertness of the
modelled `invoke` holds for every descriptor besides. -/
theorem c3_tool_arguments_inert (args args2 : List (String × String)) :
    serverApp.registry.filter EndpointDescriptor.isTool = [] ∧
    serverApp.registry.map (fun d => d.invoke args) =
      serverApp.registry.map (fun d => d.invoke []) ∧
    ∀ d : EndpointDescriptor, d.invoke args = d.invoke args2 :=
  ⟨rfl, rfl, fun d => by cases d <;> rfl⟩

/-- Claim C4: `resolve` is total — both registered identifiers resolve to
their descriptors, and any identifier distinct from both resolves to the
`NotFound` value `none`, not an exception. -/
theorem c4_resolve_total (ident : String)
    (h1 : ident ≠ "resource://hackathon-overview")
    (h2 : ident ≠ "fastmcp-python-starter") :
    resolve serverApp.registry "resource://hackathon-overview" =
      some hackathonOverviewDescriptor ∧
    resolve serverApp.registry "fastmcp-python-starter" =
      some fastmcpPythonStarterDescriptor ∧
    resolve serverApp.registry ident = none := by
  refine ⟨rfl, rfl, ?_⟩
  have e1 : (hackathonOverviewDescriptor.identifier == ident) = false := by
    rw [beq_eq_false_iff_ne]
    exact fun h => h1 h.symm
  have e2 : (fastmcpPythonStarterDescriptor.identifier == ident) = false := by
    rw [beq_eq_false_iff_ne]
    exact fun h => h2 h.symm
  show resolve [hackathonOverviewDescriptor, fastmcpPythonStarterDescriptor] ident = none
  rw [resolve, e1]
  rw [if_neg (by simp)]
  rw [resolve, e2]
  rw [if_neg (by simp)]
  rfl

theorem c4_resolve_total_witness :
    resolve serverApp.registry "resource://hackathon-overview" =
      some hackathonOverviewDescriptor ∧
    resolve serverApp.registry "fastmcp-python-starter" =
      some fastmcpPythonStarterDescriptor ∧
    resolve serverApp.registry "resource://unknown" = none :=
  c4_resolve_total "resource://unknown" (by decide) (by decide)

/-- Claim C7: request handling is read-only — for every application state and
every request (read, render, invoke, resolve, list), the application state
after the handling step equals the state before it, so no endpoint or blob is
created, mutated, or destroyed while serving. -/
theorem c7_request_handling_read_only (a : Application) (req : Request) :
    (handle a req).1 = a ∧
    (handle a req).1.registry = a.registry ∧
    (handle a req).1.name = a.name ∧
    (handle a req).1.instructions = a.instructions := by
  cases req <;> exact ⟨rfl, rfl, rfl, rfl⟩

/-- Claim C10: startup reads no file — both blobs are embedded literals, so
loading succeeds identically for every file-system state, the
`ContentLoadError` branch is unreachable, and application construction always
succeeds with the same application value. -/
theorem c10_no_file_reads (fs fs2 : FileStore) :
    loadAll fs serverSources =
      Except.ok [("hackathon_overview", HACKATHON_MARKDOWN),
                 ("prompt_template", PROMPT_TEMPLATE)] ∧
    build fs APP_NAME APP_DESCRIPTION serverSources mkServerDescriptors =
      Except.ok serverApp ∧
    build fs APP_NAME APP_DESCRIPTION serverSources mkServerDescriptors =
      build fs2 APP_NAME APP_DESCRIPTION serverSources mkServerDescriptors :=
  ⟨rfl, rfl, rfl⟩

/-- Claim C5: from any registry state, once a descriptor has been registered,
registering a second descriptor with the identical identifier fails with
`DuplicateIdentifierError`, and the state after the failed call is the state
from immediately before it — never a silent overwrite. -/
theorem c5_duplicate_register_rejected (r r1 : Registry) (d d2 : EndpointDescriptor)
    (hok : register r d = Except.ok r1) (hid : d2.identifier = d.identifier) :
    register r1 d2 = Except.error RegisterError.duplicateIdentifierError ∧
    tryRegister r1 d2 = (r1, some RegisterError.duplicateIdentifierError) := by
  have hr1 : r1 = r ++ [d] := by
    unfold register at hok
    split at hok
    · cases hok
    · cases hok
      rfl
  have hcond : ((r ++ [d]).any fun e => e.identifier == d2.identifier) = true := by
    rw [List.any_append]
    have hlast : ([d].any fun e => e.identifier == d2.identifier) = true := by
      simp [List.any, hid]
    rw [hlast, Bool.or_true]
  have hreg : register r1 d2 = Except.error RegisterError.duplicateIdentifierError := by
    unfold register
    rw [hr1]
    rw [if_pos (by simp [hcond])]
  refine ⟨hreg, ?_⟩
  unfold tryRegister
  rw [hreg]

theorem c5_duplicate_register_rejected_witness :
    register [hackathonOverviewDescriptor] hackathonOverviewDescriptor =
      Except.error RegisterError.duplicateIdentifierError ∧
    tryRegister [hackathonOverviewDescriptor] hackathonOverviewDescriptor =
      ([hackathonOverviewDescriptor], some RegisterError.duplicateIdentifierError) :=
  c5_duplicate_register_rejected [] [hackathonOverviewDescriptor]
    hackathonOverviewDescriptor hackathonOverviewDescriptor rfl rfl

theorem loadAll_error_of_missing (fs : FileStore) (p bn : String)
    (sources : List (String × ContentSource))
    (hmem : (bn, ContentSource.filePath p) ∈ sources)
    (hmiss : fs p = none) :
    ∃ e, loadAll fs sources = Except.error e := by
  induction sources with
  | nil => cases hmem
  | cons hd tl ih =>
    obtain ⟨n, s⟩ := hd
    cases hmem with
    | head =>
      exact ⟨ContentLoadError.contentLoadError p, by simp [loadAll, load, hmiss]⟩
    | tail _ hmem2 =>
      obtain ⟨e, he⟩ := ih hmem2
      cases hload : load fs s with
      | error e2 => exact ⟨e2, by simp [loadAll, hload]⟩
      | ok t => exact ⟨e, by simp [loadAll, hload, he]⟩

/-- Claim C6: when a declared source is a file path that is missing (or
unreadable, or not valid UTF-8 — all modelled as an absent entry in the file
store), loading raises `ContentLoadError`, `build` aborts with that load
error, and no Application value is constructed. -/
theorem c6_missing_file_aborts_build (fs : FileStore) (name description p bn : String)
    (sources : List (String × ContentSource))
    (mk : List (String × String) → List EndpointDescriptor)
    (hmem : (bn, ContentSource.filePath p) ∈ sources)
    (hmiss : fs p = none) :
    (∃ e, loadAll fs sources = Except.error e) ∧
    (∃ e, build fs name description sources mk = Except.error (BuildError.loadErr e)) ∧
    ∀ a : Application, build fs name description sources mk ≠ Except.ok a := by
  obtain ⟨e, he⟩ := loadAll_error_of_missing fs p bn sources hmem hmiss
  refine ⟨⟨e, he⟩, ⟨e, ?_⟩, fun a hcontra => ?_⟩
  · unfold build
    rw [he]
  · rw [show build fs name description sources mk =
        Except.error (BuildError.loadErr e) from by unfold build; rw [he]] at hcontra
    cases hcontra

theorem c6_missing_file_aborts_build_witness :
    (∃ e, loadAll (fun _ => none)
      [("hackathon_overview", ContentSource.filePath "resources/hackathon_overview.md")] =
      Except.error e) ∧
    (∃ e, build (fun _ => none) "fastmcp-hackathon" "desc"
      [("hackathon_overview", ContentSource.filePath "resources/hackathon_overview.md")]
      (fun _ => []) = Except.error (BuildError.loadErr e)) ∧
    ∀ a : Application, build (fun _ => none) "fastmcp-hackathon" "desc"
      [("hackathon_overview", ContentSource.filePath "resources/hackathon_overview.md")]
      (fun _ => []) ≠ Except.ok a :=
  c6_missing_file_aborts_build (fun _ => none) "fastmcp-hackathon" "desc"
    "resources/hackathon_overview.md" "hackathon_overview"
    [("hackathon_overview", ContentSource.filePath "resources/hackathon_overview.md")]
    (fun _ => []) (List.Mem.head _) rfl
